import Mathlib

/-!
Shallow embedding of the redirect-checker core (src/utils/redirectUtils.ts and
the wrapping POST route).  HTTP transport is abstracted by a trace function
giving the outcome of the i-th request issued, and URL-reference resolution
(the platform URL constructor) by a resolve function that may fail the way
the constructor may throw.
-/

/-- One HTTP response as seen through the axios client: status, statusText and
the (lower-cased) header map. -/
structure HttpResponse where
  status : Int
  statusText : String
  headers : List (String × String)
  deriving Repr, DecidableEq

/-- The value of the lower-cased location header, as read by
response.headers.location in the source. -/
def HttpResponse.location (r : HttpResponse) : Option String :=
  (r.headers.find? (fun p => p.1 == "location")).map (fun p => p.2)

/-- Outcome of one axios.get call: a resolved response, an axios rejection
(message, optional partial response, optional config.url), a rejection with a
plain Error, or a rejection with a non-Error value. -/
inductive FetchOutcome where
  | success (resp : HttpResponse)
  | axiosFailure (message : String) (response : Option HttpResponse) (configUrl : Option String)
  | jsFailure (message : String)
  | weirdFailure
  deriving Repr, DecidableEq

/-- RedirectStep from src/types/redirect.ts (timing omitted: wall-clock). -/
structure RedirectStep where
  url : String
  statusCode : Int
  statusText : String
  headers : List (String × String)
  location : Option String
  deriving Repr, DecidableEq

/-- RedirectResult from src/types/redirect.ts (totalTime omitted: wall-clock). -/
structure RedirectResult where
  initialUrl : String
  finalUrl : String
  steps : List RedirectStep
  redirectCount : Nat
  error : Option String
  deriving Repr, DecidableEq

/-- UrlCheckOptions from src/types/redirect.ts: all fields optional. -/
structure UrlCheckOptions where
  userAgent : Option String := none
  timeout : Option Int := none
  followRedirects : Option Bool := none
  maxRedirects : Option Int := none
  deriving Repr, DecidableEq

/-- The options after merging with defaultOptions by object spread. -/
structure MergedOptions where
  userAgent : String
  timeout : Int
  followRedirects : Bool
  maxRedirects : Int
  deriving Repr, DecidableEq

/-- defaultOptions from redirectUtils.ts. -/
def defaultOptions : MergedOptions :=
  { userAgent := "Mozilla/5.0 (Windows NT 10.0; Win64; x64) AppleWebKit/537.36 (KHTML, like Gecko) Chrome/97.0.4692.71 Safari/537.36"
    timeout := 10000
    followRedirects := true
    maxRedirects := 20 }

/-- The spread mergedOptions = \x7b ...defaultOptions, ...options \x7d: a field
present in options overrides the default. -/
def mergeOptions (o : UrlCheckOptions) : MergedOptions :=
  { userAgent := o.userAgent.getD defaultOptions.userAgent
    timeout := o.timeout.getD defaultOptions.timeout
    followRedirects := o.followRedirects.getD defaultOptions.followRedirects
    maxRedirects := o.maxRedirects.getD defaultOptions.maxRedirects }

/-- Model of String.startsWith at the character level: true iff p is a prefix
of s.  Used for the protocol check url.startsWith in checkUrl. -/
def strStartsWith (s p : String) : Bool :=
  List.isPrefixOf p.data s.data

/-- getStatusDescription from redirectUtils.ts: exact-key lookup in the
statusMap object literal, with the falsy-or fallback. -/
def getStatusDescription (statusCode : Int) : String :=
  if statusCode = 200 then "OK"
  else if statusCode = 201 then "Created"
  else if statusCode = 202 then "Accepted"
  else if statusCode = 204 then "No Content"
  else if statusCode = 300 then "Multiple Choices"
  else if statusCode = 301 then "Moved Permanently"
  else if statusCode = 302 then "Found"
  else if statusCode = 303 then "See Other"
  else if statusCode = 304 then "Not Modified"
  else if statusCode = 307 then "Temporary Redirect"
  else if statusCode = 308 then "Permanent Redirect"
  else if statusCode = 400 then "Bad Request"
  else if statusCode = 401 then "Unauthorized"
  else if statusCode = 403 then "Forbidden"
  else if statusCode = 404 then "Not Found"
  else if statusCode = 405 then "Method Not Allowed"
  else if statusCode = 408 then "Request Timeout"
  else if statusCode = 429 then "Too Many Requests"
  else if statusCode = 500 then "Internal Server Error"
  else if statusCode = 501 then "Not Implemented"
  else if statusCode = 502 then "Bad Gateway"
  else if statusCode = 503 then "Service Unavailable"
  else if statusCode = 504 then "Gateway Timeout"
  else "Unknown Status"

/-- The keys of the statusMap object literal, in order. -/
def statusMapKeys : List Int :=
  [200, 201, 202, 204, 300, 301, 302, 303, 304, 307, 308,
   400, 401, 403, 404, 405, 408, 429, 500, 501, 502, 503, 504]

/-- getStatusCodeClass from redirectUtils.ts. -/
def getStatusCodeClass (statusCode : Int) : String :=
  if 200 ≤ statusCode ∧ statusCode < 300 then "status-2xx"
  else if 300 ≤ statusCode ∧ statusCode < 400 then "status-3xx"
  else if 400 ≤ statusCode ∧ statusCode < 500 then "status-4xx"
  else if 500 ≤ statusCode then "status-5xx"
  else ""

/-- An exception live inside the try block of checkUrl: an axios rejection, a
plain Error (explicit throw, URL-constructor TypeError, undefined-property
TypeError), or a thrown non-Error value. -/
inductive Exn where
  | axiosErr (message : String) (response : Option HttpResponse) (configUrl : Option String)
  | jsErr (message : String)
  | nonError
  deriving Repr, DecidableEq

/-- The message the catch block extracts from an exception. -/
def Exn.message : Exn → String
  | .axiosErr m _ _ => m
  | .jsErr m => m
  | .nonError => "An unknown error occurred"

/-- The step recorded for a response in the redirect loop (and in the
followRedirects = false branch). -/
def mkStep (url : String) (resp : HttpResponse) : RedirectStep :=
  { url := url
    statusCode := resp.status
    statusText := resp.statusText
    headers := resp.headers
    location := resp.location }

/-- How the while loop of checkUrl ends: either control reaches the code after
the loop (with the final steps, redirectCount, remaining maxRedirects counter
and any error already stored on the result), or an exception escapes. -/
inductive LoopOut where
  | exited (steps : List RedirectStep) (rc : Nat) (remaining : Int) (err : Option String)
  | thrown (steps : List RedirectStep) (e : Exn)
  deriving Repr, DecidableEq

/-- The while loop of checkUrl (lines 67-103 of redirectUtils.ts).  trace i is
the outcome of the i-th axios.get of the whole call; resolve models
new URL(location, currentUrl).href, failing where the constructor throws.
fuel is the own bound of the loop: checkUrl starts it at remaining.toNat and both
drop by one per iteration, so fuel = 0 exactly when the condition
maxRedirects > 0 fails. -/
def traceLoop (trace : Nat → FetchOutcome) (resolve : String → String → Except String String) :
    Nat → Nat → String → Nat → List RedirectStep → Int → LoopOut
  | 0, _, _, rc, steps, remaining => .exited steps rc remaining none
  | fuel + 1, idx, currentUrl, rc, steps, remaining =>
    match trace idx with
    | .axiosFailure msg oresp curl => .thrown steps (.axiosErr msg oresp curl)
    | .jsFailure msg => .thrown steps (.jsErr msg)
    | .weirdFailure => .thrown steps .nonError
    | .success resp =>
      let steps2 := steps ++ [mkStep currentUrl resp]
      if resp.status < 300 ∨ 400 ≤ resp.status ∨ resp.location = none ∨ resp.location = some "" then
        .exited steps2 rc remaining none
      else
        match resolve (resp.location.getD "") currentUrl with
        | .error msg => .thrown steps2 (.jsErr msg)
        | .ok nextUrl =>
          if steps2.any (fun s => s.url == nextUrl) then
            .exited steps2 (rc + 1) (remaining - 1) (some "Circular redirect detected")
          else
            traceLoop trace resolve fuel (idx + 1) nextUrl (rc + 1) steps2 (remaining - 1)

/-- The code after the while loop (lines 105-113): possibly set the
maximum-redirects error, then read the last recorded step (a TypeError when
there is none) and build the returned result.  A thrown loop exception passes
through. -/
def finishLoop (url : String) (merged : MergedOptions) :
    LoopOut → Except (List RedirectStep × Exn) RedirectResult
  | .thrown steps e => .error (steps, e)
  | .exited steps rc remaining err =>
    let err2 := if remaining = 0 ∧ merged.maxRedirects ≤ (rc : Int) then
        some ("Maximum number of redirects (" ++ toString merged.maxRedirects ++ ") reached")
      else err
    match steps.getLast? with
    | none => .error (steps, .jsErr "Cannot read properties of undefined (reading url)")
    | some lastStep =>
      .ok { initialUrl := url
            finalUrl := lastStep.url
            steps := steps
            redirectCount := rc
            error := err2 }

/-- The try block of checkUrl: returns the result, or the exception that
escapes together with the steps accumulated on the shared result object. -/
def checkUrlTry (url : String) (options : UrlCheckOptions) (trace : Nat → FetchOutcome)
    (resolve : String → String → Except String String) :
    Except (List RedirectStep × Exn) RedirectResult :=
  let merged := mergeOptions options
  if url = "" ∨ (¬ strStartsWith url "http://" ∧ ¬ strStartsWith url "https://") then
    .error ([], .jsErr "Invalid URL. Please include the protocol (http:// or https://)")
  else if merged.followRedirects = false then
    match trace 0 with
    | .success resp =>
      .ok { initialUrl := url
            finalUrl := url
            steps := [mkStep url resp]
            redirectCount := 0
            error := none }
    | .axiosFailure msg oresp curl => .error ([], .axiosErr msg oresp curl)
    | .jsFailure msg => .error ([], .jsErr msg)
    | .weirdFailure => .error ([], .nonError)
  else
    let maxR : Int := if merged.maxRedirects = 0 then 20 else merged.maxRedirects
    finishLoop url merged (traceLoop trace resolve maxR.toNat 0 url 0 [] maxR)

/-- The catch block of checkUrl (lines 114-137): builds the returned result
from the exception and the steps already on the result object. -/
def catchResult (url : String) (steps0 : List RedirectStep) (e : Exn) : RedirectResult :=
  let steps : List RedirectStep :=
    match e with
    | .axiosErr _ (some resp) configUrl =>
      steps0 ++ [{ url := match configUrl with
                          | some c => if c = "" then url else c
                          | none => url
                   statusCode := resp.status
                   statusText := resp.statusText
                   headers := resp.headers
                   location := none }]
    | _ => steps0
  { initialUrl := url
    finalUrl := match steps.getLast? with
                | some s => s.url
                | none => url
    steps := steps
    redirectCount := steps.length - 1
    error := some e.message }

/-- checkUrl from redirectUtils.ts: the try block with its catch. -/
def checkUrl (url : String) (options : UrlCheckOptions) (trace : Nat → FetchOutcome)
    (resolve : String → String → Except String String) : RedirectResult :=
  match checkUrlTry url options trace resolve with
  | .ok r => r
  | .error (steps, e) => catchResult url steps e

/-- The request body of the POST route after request.json(): either parsing
failed with an Error message, or it yielded a url field (absent, or a string,
possibly empty) and an optional options object. -/
inductive ParsedBody where
  | parsed (url : Option String) (options : Option UrlCheckOptions)
  | failed (message : String)
  deriving Repr, DecidableEq

/-- A JSON body sent back by the route: a RedirectResult, or an error object. -/
inductive ApiBody where
  | result (r : RedirectResult)
  | errorObj (message : String)
  deriving Repr, DecidableEq

/-- An HTTP response of the POST route: status plus JSON body. -/
structure ApiResponse where
  status : Nat
  body : ApiBody
  deriving Repr, DecidableEq

/-- The POST handler of src/app/api/check-url/route.ts. -/
def POST (req : ParsedBody) (trace : Nat → FetchOutcome)
    (resolve : String → String → Except String String) : ApiResponse :=
  match req with
  | .failed msg => { status := 500, body := .errorObj msg }
  | .parsed none _ => { status := 400, body := .errorObj "URL is required" }
  | .parsed (some u) opts =>
    if u = "" then { status := 400, body := .errorObj "URL is required" }
    else { status := 200, body := .result (checkUrl u (opts.getD {}) trace resolve) }

/-! Concrete scenarios used as test vectors for the claims. -/

/-- A 301 response whose location header is loc. -/
def respRedirect (loc : String) : HttpResponse :=
  { status := 301, statusText := "Moved Permanently", headers := [("location", loc)] }

/-- A plain 200 response. -/
def resp200 : HttpResponse := { status := 200, statusText := "OK", headers := [] }

/-- URL resolution for scenarios whose location headers are absolute URLs. -/
def resolveAbs : String → String → Except String String := fun loc _ => .ok loc

/-- First URL of the two-URL cycle scenario. -/
def urlA : String := "http://a.example/"

/-- Second URL of the two-URL cycle scenario. -/
def urlB : String := "http://b.example/"

/-- Transport trace of the circular chain urlA to urlB and back. -/
def traceAB : Nat → FetchOutcome
  | 0 => .success (respRedirect urlB)
  | _ => .success (respRedirect urlA)

/-- The i-th URL of the never-repeating redirect chain scenario. -/
def freshUrl (i : Nat) : String := "http://h" ++ toString i ++ ".example/"

/-- Transport trace in which every response redirects to a fresh URL. -/
def traceFresh : Nat → FetchOutcome := fun i => .success (respRedirect (freshUrl (i + 1)))

/-- Transport trace: one redirect, then a network fault with no response. -/
def traceFault : Nat → FetchOutcome
  | 0 => .success (respRedirect urlB)
  | _ => .axiosFailure "connect ECONNREFUSED" none none

/-! Claim C4: statusCategory buckets. -/

/-- C4 counterexample: the source maps 799 to the 5xx bucket, not to the empty
(none) bucket, because the 5xx branch has no upper bound. -/
theorem c4_counterexample :
    getStatusCodeClass 799 = "status-5xx" ∧ getStatusCodeClass 799 ≠ "" := by
  decide

/-- C4 amended: getStatusCodeClass buckets by [200,300), [300,400), [400,500)
and the unbounded range [500, infinity); the none bucket (empty class) is
returned exactly for codes below 200, so codes at or above 600 land in the 5xx
bucket rather than in none. -/
theorem c4_statusCodeClass_buckets : ∀ statusCode : Int,
    (getStatusCodeClass statusCode = "" ↔ statusCode < 200) ∧
    (200 ≤ statusCode → statusCode < 300 → getStatusCodeClass statusCode = "status-2xx") ∧
    (300 ≤ statusCode → statusCode < 400 → getStatusCodeClass statusCode = "status-3xx") ∧
    (400 ≤ statusCode → statusCode < 500 → getStatusCodeClass statusCode = "status-4xx") ∧
    (500 ≤ statusCode → getStatusCodeClass statusCode = "status-5xx") := by
  intro c
  constructor
  · constructor
    · intro hs
      unfold getStatusCodeClass at hs
      split_ifs at hs with h1 h2 h3 h4
      · exact absurd hs (by decide)
      · exact absurd hs (by decide)
      · exact absurd hs (by decide)
      · exact absurd hs (by decide)
      · omega
    · intro hc
      unfold getStatusCodeClass
      rw [if_neg (by omega), if_neg (by omega), if_neg (by omega), if_neg (by omega)]
  · refine ⟨fun a b => ?_, fun a b => ?_, fun a b => ?_, fun a => ?_⟩
    · unfold getStatusCodeClass
      rw [if_pos ⟨a, b⟩]
    · unfold getStatusCodeClass
      rw [if_neg (by omega), if_pos ⟨a, b⟩]
    · unfold getStatusCodeClass
      rw [if_neg (by omega), if_neg (by omega), if_pos ⟨a, b⟩]
    · unfold getStatusCodeClass
      rw [if_neg (by omega), if_neg (by omega), if_neg (by omega), if_pos a]

/-- C4 witness: the amended theorem applied at 799 and at 150. -/
theorem c4_witness :
    ((500 : Int) ≤ 799 ∧ getStatusCodeClass 799 = "status-5xx") ∧
    ((150 : Int) < 200 ∧ getStatusCodeClass 150 = "") :=
  ⟨⟨by decide, (c4_statusCodeClass_buckets 799).2.2.2.2 (by decide)⟩,
   ⟨by decide, (c4_statusCodeClass_buckets 150).1.mpr (by decide)⟩⟩

/-! Claim C5: the status-description table. -/

/-- C5 counterexample: the statusMap literal has no 305 or 306 entry, so
getStatusDescription does not return the standard reason phrases (Use Proxy,
Switch Proxy resp. Unused) for two codes of the range 300 to 308. -/
theorem c5_counterexample :
    getStatusDescription 305 = "Unknown Status" ∧
    getStatusDescription 306 = "Unknown Status" ∧
    getStatusDescription 305 ≠ "Use Proxy" := by
  decide

/-- C5 amended: getStatusDescription returns the standard reason phrase for
exactly the listed table keys 200, 201, 202, 204, 300 to 304, 307, 308, 400,
401, 403, 404, 405, 408, 429 and 500 to 504 (305 and 306 are not in the
table), and "Unknown Status" for every other integer code. -/
theorem c5_statusDescription_table :
    (getStatusDescription 200 = "OK" ∧
     getStatusDescription 201 = "Created" ∧
     getStatusDescription 202 = "Accepted" ∧
     getStatusDescription 204 = "No Content" ∧
     getStatusDescription 300 = "Multiple Choices" ∧
     getStatusDescription 301 = "Moved Permanently" ∧
     getStatusDescription 302 = "Found" ∧
     getStatusDescription 303 = "See Other" ∧
     getStatusDescription 304 = "Not Modified" ∧
     getStatusDescription 307 = "Temporary Redirect" ∧
     getStatusDescription 308 = "Permanent Redirect" ∧
     getStatusDescription 400 = "Bad Request" ∧
     getStatusDescription 401 = "Unauthorized" ∧
     getStatusDescription 403 = "Forbidden" ∧
     getStatusDescription 404 = "Not Found" ∧
     getStatusDescription 405 = "Method Not Allowed" ∧
     getStatusDescription 408 = "Request Timeout" ∧
     getStatusDescription 429 = "Too Many Requests" ∧
     getStatusDescription 500 = "Internal Server Error" ∧
     getStatusDescription 501 = "Not Implemented" ∧
     getStatusDescription 502 = "Bad Gateway" ∧
     getStatusDescription 503 = "Service Unavailable" ∧
     getStatusDescription 504 = "Gateway Timeout") ∧
    ∀ code : Int, code ∉ statusMapKeys → getStatusDescription code = "Unknown Status" := by
  constructor
  · decide
  · intro code hc
    simp only [statusMapKeys, List.mem_cons, List.not_mem_nil, or_false, not_or] at hc
    obtain ⟨h1, h2, h3, h4, h5, h6, h7, h8, h9, h10, h11, h12, h13, h14, h15, h16, h17,
      h18, h19, h20, h21, h22, h23⟩ := hc
    unfold getStatusDescription
    rw [if_neg h1, if_neg h2, if_neg h3, if_neg h4, if_neg h5, if_neg h6, if_neg h7,
      if_neg h8, if_neg h9, if_neg h10, if_neg h11, if_neg h12, if_neg h13, if_neg h14,
      if_neg h15, if_neg h16, if_neg h17, if_neg h18, if_neg h19, if_neg h20, if_neg h21,
      if_neg h22, if_neg h23]

/-- C5 witness: the amended theorem applied at the out-of-table code 305. -/
theorem c5_witness :
    (305 : Int) ∉ statusMapKeys ∧ getStatusDescription 305 = "Unknown Status" :=
  ⟨by decide, c5_statusDescription_table.2 305 (by decide)⟩

/-! Lemmas about single iterations of the redirect loop. -/

/-- An iteration whose request faults is left through the catch. -/
theorem traceLoop_step_fault (trace : Nat → FetchOutcome)
    (resolve : String → String → Except String String) (fuel idx : Nat)
    (currentUrl : String) (rc : Nat) (steps : List RedirectStep) (remaining : Int)
    (msg : String) (oresp : Option HttpResponse) (curl : Option String)
    (ht : trace idx = .axiosFailure msg oresp curl) :
    traceLoop trace resolve (fuel + 1) idx currentUrl rc steps remaining =
      .thrown steps (.axiosErr msg oresp curl) := by
  simp [traceLoop, ht]

/-- An iteration that receives a redirect and follows it without detecting a
loop continues with the next URL, one more redirect counted, one less
remaining. -/
theorem traceLoop_step_follow (trace : Nat → FetchOutcome)
    (resolve : String → String → Except String String) (fuel idx : Nat)
    (currentUrl : String) (rc : Nat) (steps : List RedirectStep) (remaining : Int)
    (resp : HttpResponse) (nextUrl : String)
    (ht : trace idx = .success resp)
    (h3 : 300 ≤ resp.status) (h4 : resp.status < 400)
    (hl : resp.location ≠ none) (hl2 : resp.location ≠ some "")
    (hr : resolve (resp.location.getD "") currentUrl = .ok nextUrl)
    (hc : (steps ++ [mkStep currentUrl resp]).any (fun s => s.url == nextUrl) = false) :
    traceLoop trace resolve (fuel + 1) idx currentUrl rc steps remaining =
      traceLoop trace resolve fuel (idx + 1) nextUrl (rc + 1)
        (steps ++ [mkStep currentUrl resp]) (remaining - 1) := by
  simp only [traceLoop, ht]
  rw [if_neg (by push_neg; exact ⟨by omega, by omega, hl, hl2⟩)]
  simp only [hr]
  simp [hc]

/-- An iteration that receives a redirect whose target repeats a recorded URL
exits with the circular-redirect error, after counting the redirect. -/
theorem traceLoop_step_circular (trace : Nat → FetchOutcome)
    (resolve : String → String → Except String String) (fuel idx : Nat)
    (currentUrl : String) (rc : Nat) (steps : List RedirectStep) (remaining : Int)
    (resp : HttpResponse) (nextUrl : String)
    (ht : trace idx = .success resp)
    (h3 : 300 ≤ resp.status) (h4 : resp.status < 400)
    (hl : resp.location ≠ none) (hl2 : resp.location ≠ some "")
    (hr : resolve (resp.location.getD "") currentUrl = .ok nextUrl)
    (hc : (steps ++ [mkStep currentUrl resp]).any (fun s => s.url == nextUrl) = true) :
    traceLoop trace resolve (fuel + 1) idx currentUrl rc steps remaining =
      .exited (steps ++ [mkStep currentUrl resp]) (rc + 1) (remaining - 1)
        (some "Circular redirect detected") := by
  simp only [traceLoop, ht]
  rw [if_neg (by push_neg; exact ⟨by omega, by omega, hl, hl2⟩)]
  simp only [hr]
  simp [hc]

/-- Chain of never-repeating redirects: the loop follows one redirect per unit
of fuel, recording one hop per iteration and never breaking. -/
theorem traceLoop_fresh (trace : Nat → FetchOutcome)
    (resolve : String → String → Except String String)
    (u : Nat → String) (resp : Nat → HttpResponse) (n : Nat)
    (htrace : ∀ i, i < n → trace i = .success (resp i))
    (hstat : ∀ i, i < n → 300 ≤ (resp i).status ∧ (resp i).status < 400)
    (hloc : ∀ i, i < n → (resp i).location ≠ none ∧ (resp i).location ≠ some "")
    (hres : ∀ i, i < n → resolve ((resp i).location.getD "") (u i) = .ok (u (i + 1)))
    (hinj : ∀ i, i ≤ n → ∀ j, j ≤ n → u i = u j → i = j) :
    ∀ fuel idx, idx + fuel ≤ n →
      ∀ (rc : Nat) (steps : List RedirectStep) (remaining : Int),
      (∀ s, s ∈ steps → ∃ j, j < idx ∧ s.url = u j) →
      traceLoop trace resolve fuel idx (u idx) rc steps remaining =
        .exited (steps ++ (List.range fuel).map (fun k => mkStep (u (idx + k)) (resp (idx + k))))
          (rc + fuel) (remaining - fuel) none := by
  intro fuel
  induction fuel with
  | zero =>
    intro idx hb rc steps remaining hsteps
    simp [traceLoop]
  | succ fuel ih =>
    intro idx hb rc steps remaining hsteps
    have hidx : idx < n := by omega
    rw [traceLoop_step_follow trace resolve fuel idx (u idx) rc steps remaining
      (resp idx) (u (idx + 1)) (htrace idx hidx) (hstat idx hidx).1 (hstat idx hidx).2
      (hloc idx hidx).1 (hloc idx hidx).2 (hres idx hidx) ?fresh]
    case fresh =>
      rw [List.any_eq_false]
      intro s hs
      rcases List.mem_append.mp hs with h | h
      · obtain ⟨j, hj, hurl⟩ := hsteps s h
        simp only [beq_iff_eq, hurl]
        intro he
        have := hinj j (by omega) (idx + 1) (by omega) he
        omega
      · simp only [List.mem_singleton] at h
        subst h
        simp only [beq_iff_eq, mkStep]
        intro he
        have := hinj idx (by omega) (idx + 1) (by omega) he
        omega
    rw [ih (idx + 1) (by omega) (rc + 1) (steps ++ [mkStep (u idx) (resp idx)])
      (remaining - 1) ?inv]
    case inv =>
      intro s hs
      rcases List.mem_append.mp hs with h | h
      · obtain ⟨j, hj, hurl⟩ := hsteps s h
        exact ⟨j, by omega, hurl⟩
      · simp only [List.mem_singleton] at h
        subst h
        exact ⟨idx, by omega, rfl⟩
    congr 1
    · rw [List.append_assoc]
      congr 1
      rw [List.range_succ_eq_map, List.map_cons, List.map_map]
      simp only [List.singleton_append, Nat.add_zero, List.cons.injEq]
      refine ⟨trivial, ?_⟩
      apply List.map_congr_left
      intro k _
      simp only [Function.comp]
      have : idx + 1 + k = idx + Nat.succ k := by omega
      rw [this]
    · omega
    · push_cast
      ring

/-! Lemmas reducing checkUrl on the two main control paths. -/

/-- URLs carrying an http or https scheme pass the validation check. -/
theorem validation_passes (url : String)
    (hv : strStartsWith url "http://" = true ∨ strStartsWith url "https://" = true) :
    ¬(url = "" ∨ (¬ strStartsWith url "http://" ∧ ¬ strStartsWith url "https://")) := by
  have hne : url ≠ "" := by
    rintro rfl
    rcases hv with h | h <;> exact absurd h (by decide)
  rcases hv with h | h <;> simp [hne, h]

/-- With a valid URL and followRedirects left true, the try block runs the
redirect loop and the post-loop code. -/
theorem checkUrlTry_main (url : String) (opts : UrlCheckOptions) (trace : Nat → FetchOutcome)
    (resolve : String → String → Except String String)
    (hv : strStartsWith url "http://" = true ∨ strStartsWith url "https://" = true)
    (hf : opts.followRedirects.getD true = true) :
    checkUrlTry url opts trace resolve =
      finishLoop url (mergeOptions opts)
        (traceLoop trace resolve
          (if opts.maxRedirects.getD 20 = 0 then (20 : Int) else opts.maxRedirects.getD 20).toNat
          0 url 0 []
          (if opts.maxRedirects.getD 20 = 0 then (20 : Int) else opts.maxRedirects.getD 20)) := by
  have hfr : (mergeOptions opts).followRedirects = true := hf
  simp only [checkUrlTry]
  rw [if_neg (validation_passes url hv)]
  rw [if_neg (by rw [hfr]; simp)]
  rfl

/-! Claim C1: the circular chain A to B back to A. -/

/-- C1 counterexample: on the concrete cycle urlA to urlB to urlA with default
options, checkUrl records two hops and the circular error as the claim says,
but returns redirectCount = 2, not 1: the counter is incremented for the
detected hop before the loop check runs. -/
theorem c1_counterexample :
    (checkUrl urlA {} traceAB resolveAbs).steps.length = 2 ∧
    (checkUrl urlA {} traceAB resolveAbs).error = some "Circular redirect detected" ∧
    (checkUrl urlA {} traceAB resolveAbs).redirectCount = 2 ∧
    (checkUrl urlA {} traceAB resolveAbs).redirectCount ≠ 1 := by
  decide

/-- C1 amended: for every trace of a circular chain A to B back to A with
followRedirects = true and merged maxRedirects at least 3, checkUrl records
exactly the two hops for A and B (A is not re-added), sets error to
"Circular redirect detected", and returns redirectCount = 2 (the redirect
taken from A to B plus the detected redirect from B back to A), not 1. -/
theorem c1_circular_two_hops (A B : String) (r0 r1 : HttpResponse)
    (opts : UrlCheckOptions) (trace : Nat → FetchOutcome)
    (resolve : String → String → Except String String)
    (hv : strStartsWith A "http://" = true ∨ strStartsWith A "https://" = true)
    (hf : opts.followRedirects.getD true = true)
    (hm : 3 ≤ opts.maxRedirects.getD 20)
    (ht0 : trace 0 = .success r0)
    (h0a : 300 ≤ r0.status) (h0b : r0.status < 400)
    (h0l : r0.location ≠ none) (h0l2 : r0.location ≠ some "")
    (h0r : resolve (r0.location.getD "") A = .ok B)
    (ht1 : trace 1 = .success r1)
    (h1a : 300 ≤ r1.status) (h1b : r1.status < 400)
    (h1l : r1.location ≠ none) (h1l2 : r1.location ≠ some "")
    (h1r : resolve (r1.location.getD "") B = .ok A)
    (hAB : A ≠ B) :
    checkUrl A opts trace resolve =
      { initialUrl := A
        finalUrl := B
        steps := [mkStep A r0, mkStep B r1]
        redirectCount := 2
        error := some "Circular redirect detected" } := by
  have hm0 : ¬(opts.maxRedirects.getD 20 = 0) := by omega
  have htry := checkUrlTry_main A opts trace resolve hv hf
  rw [if_neg hm0] at htry
  obtain ⟨k, hk⟩ : ∃ k, (opts.maxRedirects.getD 20).toNat = (k + 1) + 1 :=
    ⟨(opts.maxRedirects.getD 20).toNat - 2, by omega⟩
  rw [hk] at htry
  rw [traceLoop_step_follow trace resolve (k + 1) 0 A 0 [] (opts.maxRedirects.getD 20)
    r0 B ht0 h0a h0b h0l h0l2 h0r (by simp [mkStep, hAB])] at htry
  simp only [Nat.zero_add, List.nil_append] at htry
  rw [traceLoop_step_circular trace resolve k 1 B 1 [mkStep A r0]
    (opts.maxRedirects.getD 20 - 1) r1 A ht1 h1a h1b h1l h1l2 h1r (by simp [mkStep])] at htry
  rw [finishLoop] at htry
  rw [if_neg (by
    have : (mergeOptions opts).maxRedirects = opts.maxRedirects.getD 20 := rfl
    rw [this]
    push_neg
    intro h
    omega)] at htry
  simp only [List.nil_append, List.singleton_append, List.getLast?_cons_cons,
    List.getLast?_singleton] at htry
  simp only [checkUrl, htry, mkStep]

/-- C1 witness: the amended theorem applied to the concrete cycle scenario. -/
theorem c1_witness :
    checkUrl urlA {} traceAB resolveAbs =
      { initialUrl := urlA
        finalUrl := urlB
        steps := [mkStep urlA (respRedirect urlB), mkStep urlB (respRedirect urlA)]
        redirectCount := 2
        error := some "Circular redirect detected" } :=
  c1_circular_two_hops urlA urlB (respRedirect urlB) (respRedirect urlA) {} traceAB resolveAbs
    (Or.inl (by decide)) (by decide) (by decide) rfl (by decide) (by decide) (by decide)
    (by decide) rfl rfl (by decide) (by decide) (by decide) (by decide) rfl (by decide)

/-! Claim C6: circular detection on the last permitted redirect. -/

/-- C6 counterexample: on the cycle urlA to urlB to urlA with maxRedirects = 2,
the loop breaks on circular detection in the same iteration in which the
remaining counter reaches 0, and the code after the loop overwrites the
circular message with the maximum-redirects message. -/
theorem c6_counterexample :
    (checkUrl urlA { maxRedirects := some 2 } traceAB resolveAbs).error =
      some "Maximum number of redirects (2) reached" ∧
    (checkUrl urlA { maxRedirects := some 2 } traceAB resolveAbs).error ≠
      some "Circular redirect detected" := by
  decide

/-- C6 amended: the maximum-redirects message is applied after the loop
whenever the remaining counter reached 0 and redirectCount is at least the
merged maxRedirects, regardless of how the loop exited; in particular, when a
circular redirect is detected on the last permitted redirect, the final error
is the maximum-redirects message, which overwrites "Circular redirect
detected". -/
theorem c6_limit_overwrites_circular (A B : String) (r0 r1 : HttpResponse)
    (opts : UrlCheckOptions) (trace : Nat → FetchOutcome)
    (resolve : String → String → Except String String)
    (hv : strStartsWith A "http://" = true ∨ strStartsWith A "https://" = true)
    (hf : opts.followRedirects.getD true = true)
    (hm : opts.maxRedirects = some 2)
    (ht0 : trace 0 = .success r0)
    (h0a : 300 ≤ r0.status) (h0b : r0.status < 400)
    (h0l : r0.location ≠ none) (h0l2 : r0.location ≠ some "")
    (h0r : resolve (r0.location.getD "") A = .ok B)
    (ht1 : trace 1 = .success r1)
    (h1a : 300 ≤ r1.status) (h1b : r1.status < 400)
    (h1l : r1.location ≠ none) (h1l2 : r1.location ≠ some "")
    (h1r : resolve (r1.location.getD "") B = .ok A)
    (hAB : A ≠ B) :
    checkUrl A opts trace resolve =
      { initialUrl := A
        finalUrl := B
        steps := [mkStep A r0, mkStep B r1]
        redirectCount := 2
        error := some "Maximum number of redirects (2) reached" } := by
  have hgd : opts.maxRedirects.getD 20 = 2 := by rw [hm]; rfl
  have htry := checkUrlTry_main A opts trace resolve hv hf
  rw [hgd] at htry
  rw [if_neg (by decide)] at htry
  rw [show ((2 : Int).toNat) = (0 + 1) + 1 from rfl] at htry
  rw [traceLoop_step_follow trace resolve (0 + 1) 0 A 0 [] 2
    r0 B ht0 h0a h0b h0l h0l2 h0r (by simp [mkStep, hAB])] at htry
  simp only [Nat.zero_add, List.nil_append] at htry
  rw [traceLoop_step_circular trace resolve 0 1 B 1 [mkStep A r0]
    (2 - 1) r1 A ht1 h1a h1b h1l h1l2 h1r (by simp [mkStep])] at htry
  rw [finishLoop] at htry
  have hmm2 : (mergeOptions opts).maxRedirects = (2 : Int) := by
    show opts.maxRedirects.getD 20 = 2
    exact hgd
  rw [hmm2] at htry
  rw [if_pos (by norm_num)] at htry
  rw [show ("Maximum number of redirects (" ++ toString (2 : Int) ++ ") reached") =
    "Maximum number of redirects (2) reached" from by decide] at htry
  simp only [List.singleton_append, List.getLast?_cons_cons, List.getLast?_singleton] at htry
  simp only [checkUrl, htry, mkStep]

/-- C6 witness: the amended theorem applied to the concrete cycle scenario at
the limit maxRedirects = 2. -/
theorem c6_witness :
    checkUrl urlA { maxRedirects := some 2 } traceAB resolveAbs =
      { initialUrl := urlA
        finalUrl := urlB
        steps := [mkStep urlA (respRedirect urlB), mkStep urlB (respRedirect urlA)]
        redirectCount := 2
        error := some "Maximum number of redirects (2) reached" } :=
  c6_limit_overwrites_circular urlA urlB (respRedirect urlB) (respRedirect urlA)
    { maxRedirects := some 2 } traceAB resolveAbs
    (Or.inl (by decide)) (by decide) rfl rfl (by decide) (by decide) (by decide)
    (by decide) rfl rfl (by decide) (by decide) (by decide) (by decide) rfl (by decide)

/-! Claim C3: redirectCount in the error path. -/

/-- C3 counterexample: one redirect is followed (urlA to urlB) and the request
to urlB faults with no response; the catch path records no hop for the
faulting attempt and computes redirectCount from the hop-list length, giving
0, not the 1 redirect actually followed. -/
theorem c3_counterexample :
    (checkUrl urlA {} traceFault resolveAbs).error = some "connect ECONNREFUSED" ∧
    (checkUrl urlA {} traceFault resolveAbs).steps.length = 1 ∧
    (checkUrl urlA {} traceFault resolveAbs).redirectCount = 0 ∧
    (checkUrl urlA {} traceFault resolveAbs).redirectCount ≠ 1 := by
  decide

/-- C3 amended: in the error path redirectCount is derived from the recorded
hop list as max(length - 1, 0), not from the count of redirects actually
followed: after one followed redirect whose target request faults without a
response, the result has one hop and redirectCount = 0 (the incremented local
counter is discarded). -/
theorem c3_error_path_length_derived (A B : String) (r0 : HttpResponse) (msg : String)
    (opts : UrlCheckOptions) (trace : Nat → FetchOutcome)
    (resolve : String → String → Except String String)
    (hv : strStartsWith A "http://" = true ∨ strStartsWith A "https://" = true)
    (hf : opts.followRedirects.getD true = true)
    (hm : 2 ≤ opts.maxRedirects.getD 20)
    (ht0 : trace 0 = .success r0)
    (h0a : 300 ≤ r0.status) (h0b : r0.status < 400)
    (h0l : r0.location ≠ none) (h0l2 : r0.location ≠ some "")
    (h0r : resolve (r0.location.getD "") A = .ok B)
    (hAB : A ≠ B)
    (ht1 : trace 1 = .axiosFailure msg none none) :
    checkUrl A opts trace resolve =
      { initialUrl := A
        finalUrl := A
        steps := [mkStep A r0]
        redirectCount := 0
        error := some msg } ∧
    (checkUrl A opts trace resolve).redirectCount =
      (checkUrl A opts trace resolve).steps.length - 1 := by
  have hm0 : ¬(opts.maxRedirects.getD 20 = 0) := by omega
  have htry := checkUrlTry_main A opts trace resolve hv hf
  rw [if_neg hm0] at htry
  obtain ⟨k, hk⟩ : ∃ k, (opts.maxRedirects.getD 20).toNat = (k + 1) + 1 :=
    ⟨(opts.maxRedirects.getD 20).toNat - 2, by omega⟩
  rw [hk] at htry
  rw [traceLoop_step_follow trace resolve (k + 1) 0 A 0 [] (opts.maxRedirects.getD 20)
    r0 B ht0 h0a h0b h0l h0l2 h0r (by simp [mkStep, hAB])] at htry
  simp only [Nat.zero_add, List.nil_append] at htry
  rw [traceLoop_step_fault trace resolve k 1 B 1 [mkStep A r0]
    (opts.maxRedirects.getD 20 - 1) msg none none ht1] at htry
  rw [finishLoop] at htry
  have hres : checkUrl A opts trace resolve =
      { initialUrl := A
        finalUrl := A
        steps := [mkStep A r0]
        redirectCount := 0
        error := some msg } := by
    simp only [checkUrl, htry, catchResult, Exn.message, List.getLast?_singleton, mkStep,
      List.length_singleton, Nat.sub_self]
  exact ⟨hres, by rw [hres]; rfl⟩

/-- C3 witness: the amended theorem applied to the concrete faulting trace. -/
theorem c3_witness :
    checkUrl urlA {} traceFault resolveAbs =
      { initialUrl := urlA
        finalUrl := urlA
        steps := [mkStep urlA (respRedirect urlB)]
        redirectCount := 0
        error := some "connect ECONNREFUSED" } :=
  (c3_error_path_length_derived urlA urlB (respRedirect urlB) "connect ECONNREFUSED" {}
    traceFault resolveAbs
    (Or.inl (by decide)) (by decide) (by decide) rfl (by decide) (by decide) (by decide)
    (by decide) rfl (by decide) rfl).1

/-! Claim C2: redirect-limit exhaustion with maxRedirects = 3. -/

/-- C2 counterexample: with maxRedirects = 3 and every response redirecting to
a fresh URL, checkUrl stops after 3 redirects but records only 3 hops (the
fourth URL is never requested), not the 4 hops the claim states. -/
theorem c2_counterexample :
    (checkUrl (freshUrl 0) { maxRedirects := some 3 } traceFresh resolveAbs).steps.length = 3 ∧
    (checkUrl (freshUrl 0) { maxRedirects := some 3 } traceFresh resolveAbs).steps.length ≠ 4 ∧
    (checkUrl (freshUrl 0) { maxRedirects := some 3 } traceFresh resolveAbs).redirectCount = 3 ∧
    (checkUrl (freshUrl 0) { maxRedirects := some 3 } traceFresh resolveAbs).error =
      some "Maximum number of redirects (3) reached" := by
  decide

/-- C2 amended: with maxRedirects = 3, followRedirects = true and every
response a redirect to a new, never-before-seen URL, checkUrl stops after
exactly 3 redirects with exactly 3 hops in total (the fourth URL is resolved
but never requested), and sets error to the message naming the configured
limit. -/
theorem c2_limit_three_hops (u : Nat → String) (resp : Nat → HttpResponse)
    (trace : Nat → FetchOutcome) (resolve : String → String → Except String String)
    (opts : UrlCheckOptions)
    (hv : strStartsWith (u 0) "http://" = true ∨ strStartsWith (u 0) "https://" = true)
    (hf : opts.followRedirects.getD true = true)
    (hm : opts.maxRedirects = some 3)
    (htrace : ∀ i, i < 3 → trace i = .success (resp i))
    (hstat : ∀ i, i < 3 → 300 ≤ (resp i).status ∧ (resp i).status < 400)
    (hloc : ∀ i, i < 3 → (resp i).location ≠ none ∧ (resp i).location ≠ some "")
    (hres : ∀ i, i < 3 → resolve ((resp i).location.getD "") (u i) = .ok (u (i + 1)))
    (hinj : ∀ i, i ≤ 3 → ∀ j, j ≤ 3 → u i = u j → i = j) :
    checkUrl (u 0) opts trace resolve =
      { initialUrl := u 0
        finalUrl := u 2
        steps := (List.range 3).map (fun k => mkStep (u k) (resp k))
        redirectCount := 3
        error := some "Maximum number of redirects (3) reached" } := by
  have hgd : opts.maxRedirects.getD 20 = 3 := by rw [hm]; rfl
  have htry := checkUrlTry_main (u 0) opts trace resolve hv hf
  rw [hgd] at htry
  rw [if_neg (by decide)] at htry
  rw [show ((3 : Int).toNat) = 3 from rfl] at htry
  rw [traceLoop_fresh trace resolve u resp 3 htrace hstat hloc hres hinj 3 0 (by omega)
    0 [] 3 (by simp)] at htry
  simp only [Nat.zero_add, List.nil_append] at htry
  rw [finishLoop] at htry
  have hmm2 : (mergeOptions opts).maxRedirects = (3 : Int) := by
    show opts.maxRedirects.getD 20 = 3
    exact hgd
  rw [hmm2] at htry
  rw [if_pos (by constructor <;> norm_num)] at htry
  rw [show ("Maximum number of redirects (" ++ toString (3 : Int) ++ ") reached") =
    "Maximum number of redirects (3) reached" from by decide] at htry
  rw [show ((List.range 3).map (fun k => mkStep (u k) (resp k))).getLast? =
    some (mkStep (u 2) (resp 2)) from by rw [show List.range 3 = [0, 1, 2] from rfl]; rfl] at htry
  simp only [checkUrl, htry, mkStep]

/-- C2 witness: the amended theorem applied to the concrete fresh-chain
scenario with maxRedirects = 3. -/
theorem c2_witness :
    checkUrl (freshUrl 0) { maxRedirects := some 3 } traceFresh resolveAbs =
      { initialUrl := freshUrl 0
        finalUrl := freshUrl 2
        steps := (List.range 3).map
          (fun k => mkStep (freshUrl k) (respRedirect (freshUrl (k + 1))))
        redirectCount := 3
        error := some "Maximum number of redirects (3) reached" } :=
  c2_limit_three_hops freshUrl (fun i => respRedirect (freshUrl (i + 1))) traceFresh
    resolveAbs { maxRedirects := some 3 }
    (Or.inl (by decide)) rfl rfl (fun i _ => rfl) (by decide) (by decide)
    (fun i _ => rfl) (by decide)

/-! Claim C10: maxRedirects = 0 falls back to the default bound of 20. -/

/-- C10: with maxRedirects = 0 and followRedirects = true, the falsy-or
coercion turns the loop bound into 20; on a chain of always-fresh redirects
the loop follows 20 redirects (20 hops), and the post-loop message names the
caller-configured 0 as the limit. -/
theorem c10_maxRedirects_zero (u : Nat → String) (resp : Nat → HttpResponse)
    (trace : Nat → FetchOutcome) (resolve : String → String → Except String String)
    (opts : UrlCheckOptions)
    (hv : strStartsWith (u 0) "http://" = true ∨ strStartsWith (u 0) "https://" = true)
    (hf : opts.followRedirects.getD true = true)
    (hm : opts.maxRedirects = some 0)
    (htrace : ∀ i, i < 20 → trace i = .success (resp i))
    (hstat : ∀ i, i < 20 → 300 ≤ (resp i).status ∧ (resp i).status < 400)
    (hloc : ∀ i, i < 20 → (resp i).location ≠ none ∧ (resp i).location ≠ some "")
    (hres : ∀ i, i < 20 → resolve ((resp i).location.getD "") (u i) = .ok (u (i + 1)))
    (hinj : ∀ i, i ≤ 20 → ∀ j, j ≤ 20 → u i = u j → i = j) :
    checkUrl (u 0) opts trace resolve =
      { initialUrl := u 0
        finalUrl := u 19
        steps := (List.range 20).map (fun k => mkStep (u k) (resp k))
        redirectCount := 20
        error := some "Maximum number of redirects (0) reached" } := by
  have hgd : opts.maxRedirects.getD 20 = 0 := by rw [hm]; rfl
  have htry := checkUrlTry_main (u 0) opts trace resolve hv hf
  rw [hgd] at htry
  rw [if_pos rfl] at htry
  rw [show ((20 : Int).toNat) = 20 from rfl] at htry
  rw [traceLoop_fresh trace resolve u resp 20 htrace hstat hloc hres hinj 20 0 (by omega)
    0 [] 20 (by simp)] at htry
  simp only [Nat.zero_add, List.nil_append] at htry
  rw [finishLoop] at htry
  have hmm2 : (mergeOptions opts).maxRedirects = (0 : Int) := by
    show opts.maxRedirects.getD 20 = 0
    exact hgd
  rw [hmm2] at htry
  rw [if_pos (by constructor <;> norm_num)] at htry
  rw [show ("Maximum number of redirects (" ++ toString (0 : Int) ++ ") reached") =
    "Maximum number of redirects (0) reached" from by decide] at htry
  rw [show ((List.range 20).map (fun k => mkStep (u k) (resp k))).getLast? =
    some (mkStep (u 19) (resp 19)) from by
      rw [show List.range 20 = [0, 1, 2, 3, 4, 5, 6, 7, 8, 9, 10, 11, 12, 13, 14, 15, 16,
        17, 18, 19] from rfl]
      rfl] at htry
  simp only [checkUrl, htry, mkStep]

/-- C10 witness: the theorem applied to the concrete fresh-chain scenario with
maxRedirects = 0. -/
theorem c10_witness :
    checkUrl (freshUrl 0) { maxRedirects := some 0 } traceFresh resolveAbs =
      { initialUrl := freshUrl 0
        finalUrl := freshUrl 19
        steps := (List.range 20).map
          (fun k => mkStep (freshUrl k) (respRedirect (freshUrl (k + 1))))
        redirectCount := 20
        error := some "Maximum number of redirects (0) reached" } :=
  c10_maxRedirects_zero freshUrl (fun i => respRedirect (freshUrl (i + 1))) traceFresh
    resolveAbs { maxRedirects := some 0 }
    (Or.inl (by decide)) rfl rfl (fun i _ => rfl) (by decide) (by decide)
    (fun i _ => rfl) (by decide)

/-! Claim C8: followRedirects = false makes exactly one request. -/

/-- A 302 response carrying a Location header, for the no-follow scenario. -/
def resp302 : HttpResponse :=
  { status := 302, statusText := "Found", headers := [("location", urlB)] }

/-- Transport trace answering every request with the 302 response. -/
def trace302 : Nat → FetchOutcome := fun _ => .success resp302

/-- C8: with followRedirects = false and a completing request, checkUrl makes
one request and returns a single-hop result carrying the exact status of that hop,
redirectCount = 0, no error, and finalUrl equal to the input url, for any
response, also when a Location header is present. -/
theorem c8_no_follow_single_hop (url : String) (opts : UrlCheckOptions)
    (trace : Nat → FetchOutcome) (resolve : String → String → Except String String)
    (resp : HttpResponse)
    (hv : strStartsWith url "http://" = true ∨ strStartsWith url "https://" = true)
    (hf : opts.followRedirects = some false)
    (ht : trace 0 = .success resp) :
    checkUrl url opts trace resolve =
      { initialUrl := url
        finalUrl := url
        steps := [mkStep url resp]
        redirectCount := 0
        error := none } := by
  have hfr : (mergeOptions opts).followRedirects = false := by
    show opts.followRedirects.getD true = false
    rw [hf]
    rfl
  simp only [checkUrl, checkUrlTry]
  rw [if_neg (validation_passes url hv)]
  rw [if_pos hfr, ht]

/-- C8 witness: the theorem applied to a 302 response with a Location header
under followRedirects = false. -/
theorem c8_witness :
    checkUrl urlA { followRedirects := some false } trace302 resolveAbs =
      { initialUrl := urlA
        finalUrl := urlA
        steps := [mkStep urlA resp302]
        redirectCount := 0
        error := none } :=
  c8_no_follow_single_hop urlA { followRedirects := some false } trace302 resolveAbs resp302
    (Or.inl (by decide)) rfl rfl

/-! Claim C7: checkUrl never throws. -/

/-- Reading the final URL from a hop list falls back to the given url exactly
when the list is empty, and otherwise names the url of a recorded hop. -/
theorem finalUrl_wf_aux (url : String) (steps : List RedirectStep) :
    (match steps.getLast? with
     | some s => s.url
     | none => url) = url ∨
    ∃ s, s ∈ steps ∧
      (match steps.getLast? with
       | some s => s.url
       | none => url) = s.url := by
  cases hL : steps.getLast? with
  | none => left; rfl
  | some s => exact Or.inr ⟨s, List.mem_of_getLast?_eq_some hL, rfl⟩

/-- Results built by finishLoop keep the input url and take finalUrl from a
recorded hop. -/
theorem finishLoop_ok_shape (url : String) (merged : MergedOptions) (lo : LoopOut)
    (r : RedirectResult) (hE : finishLoop url merged lo = .ok r) :
    r.initialUrl = url ∧ (r.finalUrl = url ∨ ∃ s, s ∈ r.steps ∧ r.finalUrl = s.url) := by
  cases lo with
  | thrown steps e => simp [finishLoop] at hE
  | exited steps rc remaining err =>
    simp only [finishLoop] at hE
    cases hL : steps.getLast? with
    | none => rw [hL] at hE; simp at hE
    | some last =>
      rw [hL] at hE
      injection hE with h
      subst h
      exact ⟨rfl, Or.inr ⟨last, List.mem_of_getLast?_eq_some hL, rfl⟩⟩

/-- Results returned by the try block keep the input url and take finalUrl
from the input url or a recorded hop. -/
theorem checkUrlTry_ok_shape (url : String) (opts : UrlCheckOptions)
    (trace : Nat → FetchOutcome) (resolve : String → String → Except String String)
    (r : RedirectResult) (hE : checkUrlTry url opts trace resolve = .ok r) :
    r.initialUrl = url ∧ (r.finalUrl = url ∨ ∃ s, s ∈ r.steps ∧ r.finalUrl = s.url) := by
  simp only [checkUrlTry] at hE
  split at hE
  · exact absurd hE (by simp)
  · split at hE
    · split at hE
      · injection hE with h
        subst h
        exact ⟨rfl, Or.inl rfl⟩
      · exact absurd hE (by simp)
      · exact absurd hE (by simp)
      · exact absurd hE (by simp)
    · exact finishLoop_ok_shape _ _ _ _ hE

/-- C7: checkUrl never lets an exception escape: every internal failure is
routed through the catch block, which returns a fully constructed result whose
error field carries the failure message; in all cases the returned result is
well formed (initialUrl is the input url and finalUrl is the input url or the
url of a recorded hop). -/
theorem c7_never_throws (url : String) (opts : UrlCheckOptions)
    (trace : Nat → FetchOutcome) (resolve : String → String → Except String String) :
    (checkUrl url opts trace resolve).initialUrl = url ∧
    ((checkUrl url opts trace resolve).finalUrl = url ∨
      ∃ s, s ∈ (checkUrl url opts trace resolve).steps ∧
        (checkUrl url opts trace resolve).finalUrl = s.url) ∧
    (∀ steps e, checkUrlTry url opts trace resolve = .error (steps, e) →
      checkUrl url opts trace resolve = catchResult url steps e ∧
      (checkUrl url opts trace resolve).error = some e.message) := by
  cases hE : checkUrlTry url opts trace resolve with
  | error se =>
    obtain ⟨steps, e⟩ := se
    have hcu : checkUrl url opts trace resolve = catchResult url steps e := by
      simp only [checkUrl, hE]
    refine ⟨by rw [hcu]; rfl, ?_, ?_⟩
    · rw [hcu]
      exact finalUrl_wf_aux url ((catchResult url steps e).steps)
    · intro steps2 e2 hE2
      injection hE2 with h
      cases h
      exact ⟨hcu, by rw [hcu]; rfl⟩
  | ok r =>
    have hcu : checkUrl url opts trace resolve = r := by
      simp only [checkUrl, hE]
    obtain ⟨h1, h2⟩ := checkUrlTry_ok_shape url opts trace resolve r hE
    refine ⟨by rw [hcu]; exact h1, by rw [hcu]; exact h2, ?_⟩
    intro steps2 e2 hE2
    exact absurd hE2 (by simp)

/-- C7 witness: the theorem applied to a schemeless URL, whose validation
throw is converted into the error field of a well-formed result. -/
theorem c7_witness :
    checkUrl "ftp://x" {} traceAB resolveAbs =
      catchResult "ftp://x" []
        (.jsErr "Invalid URL. Please include the protocol (http:// or https://)") ∧
    (checkUrl "ftp://x" {} traceAB resolveAbs).error =
      some "Invalid URL. Please include the protocol (http:// or https://)" :=
  (c7_never_throws "ftp://x" {} traceAB resolveAbs).2.2 []
    (.jsErr "Invalid URL. Please include the protocol (http:// or https://)") (by rfl)

/-! Claim C9: HTTP statuses of the wrapping endpoint. -/

/-- C9 counterexample: a request body whose url field is present but the empty
string also gets status 400, so 400 is not returned exactly when the url field
is missing. -/
theorem c9_counterexample :
    POST (.parsed (some "") none) traceAB resolveAbs =
      { status := 400, body := .errorObj "URL is required" } ∧
    some "" ≠ (none : Option String) := by
  exact ⟨rfl, by simp⟩

/-- C9 amended: the endpoint returns 200 with the TraceResult body for every
completed trace (also when its error field is set), 500 when reading the
request body fails, and 400 exactly when the url field is missing or falsy
(absent or the empty string). -/
theorem c9_endpoint_statuses (b : ParsedBody) (trace : Nat → FetchOutcome)
    (resolve : String → String → Except String String) :
    (∀ msg, b = .failed msg →
      POST b trace resolve = { status := 500, body := .errorObj msg }) ∧
    (∀ ourl oopts, b = .parsed ourl oopts →
      ((POST b trace resolve).status = 400 ↔ (ourl = none ∨ ourl = some ""))) ∧
    (∀ u oopts, b = .parsed (some u) oopts → u ≠ "" →
      POST b trace resolve =
        { status := 200, body := .result (checkUrl u (oopts.getD {}) trace resolve) }) := by
  refine ⟨?_, ?_, ?_⟩
  · rintro msg rfl
    rfl
  · rintro ourl oopts rfl
    cases ourl with
    | none => simp [POST]
    | some u =>
      by_cases hu : u = ""
      · subst hu
        simp [POST]
      · simp [POST, hu]
  · rintro u oopts rfl hu
    simp [POST, hu]

/-- C9 witness: the amended theorem applied on all three paths, including a
completed trace whose error field is set (the circular cycle), returned with
status 200. -/
theorem c9_witness :
    POST (.failed "Unexpected end of JSON input") traceAB resolveAbs =
      { status := 500, body := .errorObj "Unexpected end of JSON input" } ∧
    (POST (.parsed none none) traceAB resolveAbs).status = 400 ∧
    POST (.parsed (some urlA) none) traceAB resolveAbs =
      { status := 200, body := .result (checkUrl urlA {} traceAB resolveAbs) } :=
  ⟨(c9_endpoint_statuses (.failed "Unexpected end of JSON input") traceAB resolveAbs).1 _ rfl,
   ((c9_endpoint_statuses (.parsed none none) traceAB resolveAbs).2.1 none none rfl).mpr
     (Or.inl rfl),
   (c9_endpoint_statuses (.parsed (some urlA) none) traceAB resolveAbs).2.2 urlA none rfl
     (by decide)⟩
